import Mathlib

/-!
Shallow embedding of the llama handle-safety layer (src/src/lib.rs and
src/src/pass_manager.rs).  Raw native pointers are modelled as natural
numbers with 0 playing the role of the null pointer; the native toolkit's
calls are modelled as explicit oracles whose outcomes (allocated pointer,
status code, out-parameters) are arguments of the embedded functions, with
their contracts taken from the LLVM-C documentation.  Byte strings are
lists of naturals.
-/

namespace Llama

/-- A raw pointer handed back by the native toolkit; `0` is the null pointer. -/
abbrev RawPtr := Nat

/-- Rust's `NonNull<T>`: a raw pointer together with the proof it is non-null. -/
structure NonNullPtr where
  ptr : RawPtr
  nonnull : ptr ≠ 0

/-- The bytes stored at a `Message`'s inner `*mut c_char`.  `null` models a
null inner pointer; `ptr bytes` models a non-null pointer to the bytes of a
native diagnostic string, terminator excluded (the end of the list stands for
the NUL terminator of the allocation). -/
inductive Message where
  | null
  | ptr (bytes : List Nat)
deriving DecidableEq

/-- An opaque host I/O failure (`std::io::Error`), identified by a code. -/
abbrev IoError := Nat

/-- Modelled from the spec: the error taxonomy of `error.rs`, which is not
under src/ — `NullPointer`, `Message` carrying the owned native diagnostic,
`InvalidPath`, and `Io` carrying the underlying I/O failure. -/
inductive Error where
  | NullPointer
  | Message (msg : Llama.Message)
  | InvalidPath
  | Io (cause : IoError)
deriving DecidableEq

/-- Result of a Rust computation that can also panic (`expect` on `None`/`Err`). -/
inductive Outcome (α : Type) where
  | ok (a : α)
  | err (e : Error)
  | panicked (msg : String)

/-- `wrap_inner` (lib.rs): `NonNull::new`, turning a null raw pointer into
`Error::NullPointer` and a non-null one into the checked handle. -/
def wrap_inner (x : RawPtr) : Except Error NonNullPtr :=
  if h : x = 0 then .error .NullPointer else .ok ⟨x, h⟩

/-- The C `strlen` over the bytes stored at a pointer: the number of bytes
before the first 0 (the end of the list stands for the terminator). -/
def cstrlen : List Nat → Nat
  | [] => 0
  | b :: bs => if b = 0 then 0 else cstrlen bs + 1

/-- `Message::len` (lib.rs): 0 for a null inner pointer, `strlen` otherwise. -/
def Message.len : Message → Nat
  | .null => 0
  | .ptr bytes => cstrlen bytes

/-- The fixed placeholder `"<NULL>"` rendered for a null-pointer `Message`,
as bytes. -/
def NULL_PLACEHOLDER : List Nat := [60, 78, 85, 76, 76, 62]

/-- `impl AsRef<str> for Message` (lib.rs): `"<NULL>"` for a null inner
pointer, otherwise the `len()` bytes read from the pointer
(`slice::from_raw_parts(ptr, len)`). -/
def Message.as_ref : Message → List Nat
  | .null => NULL_PLACEHOLDER
  | .ptr bytes => bytes.take (cstrlen bytes)

/-- Whether the `Message`'s inner pointer is null (`self.0.is_null()`). -/
def Message.isNull : Message → Bool
  | .null => true
  | .ptr _ => false

/-- The native disposal calls a wrapper's `Drop` implementation can make. -/
inductive NativeCall where
  | disposeMessage
  | disposeMemoryBuffer
deriving DecidableEq

/-- `impl Drop for Message` (lib.rs): call `LLVMDisposeMessage` if and only
if the inner pointer is non-null.  The result is the list of native disposal
calls the drop performs. -/
def Message.dropCalls : Message → List NativeCall
  | .null => []
  | .ptr _ => [.disposeMessage]

/-- A `CString` successfully built by the `cstr!` macro: host bytes with no
interior NUL. -/
structure CStr where
  bytes : List Nat

/-- The `cstr!` macro (lib.rs): `CString::new(x).expect("Invalid C string")`.
`CString::new` fails exactly when the host bytes contain an interior 0, and
`expect` turns that failure into a panic. -/
def cstr (s : List Nat) : Outcome CStr :=
  if 0 ∈ s then .panicked "Invalid C string" else .ok ⟨s⟩

/-- `MemoryBuffer` (lib.rs): a non-null native handle, together with the byte
contents the native toolkit stores in the buffer object behind it. -/
structure MemoryBuffer where
  handle : NonNullPtr
  data : List Nat

/-- `MemoryBuffer::from_raw` (lib.rs): `wrap_inner` on the raw pointer, then
wrap it.  `data` is the contents of the native buffer the pointer refers to. -/
def MemoryBuffer.from_raw (p : RawPtr) (data : List Nat) : Except Error MemoryBuffer :=
  match wrap_inner p with
  | .error e => .error e
  | .ok q => .ok ⟨q, data⟩

/-- A host filesystem path after `Path::to_str()`: `none` models a path whose
bytes are not valid UTF-8 (so `to_str` fails), `some bytes` the UTF-8 bytes
(which may still contain an interior 0, since NUL is valid UTF-8). -/
structure HostPath where
  str : Option (List Nat)

/-- Outcome of `LLVMCreateMemoryBufferWithContentsOfFile`.  Per the LLVM-C
contract the call returns status 0 on success, setting the out-buffer to a
fresh non-null buffer holding the file's bytes and leaving the out-message
null; it returns status 1 on failure, leaving the out-buffer null and setting
the out-message to the native diagnostic string. -/
inductive FileReadOutcome where
  | success (mem : NonNullPtr) (data : List Nat)
  | failure (diagnostic : List Nat)

/-- The status code (`c_int`) the native file-read call returns. -/
def FileReadOutcome.ret : FileReadOutcome → Nat
  | .success _ _ => 0
  | .failure _ => 1

/-- The `*mut LLVMMemoryBuffer` out-parameter after the native file-read call. -/
def FileReadOutcome.mem : FileReadOutcome → RawPtr
  | .success ptr _ => ptr.ptr
  | .failure _ => 0

/-- The contents of the buffer the native file-read call produced (empty when
it produced none). -/
def FileReadOutcome.memData : FileReadOutcome → List Nat
  | .success _ data => data
  | .failure _ => []

/-- The `*mut c_char` out-message after the native file-read call, wrapped by
`Message::from_raw`. -/
def FileReadOutcome.message : FileReadOutcome → Message
  | .success _ _ => .null
  | .failure diagnostic => .ptr diagnostic

/-- `MemoryBuffer::from_file` (lib.rs): convert the path with `to_str`
(`InvalidPath` on failure) and `cstr!` (panics on interior NUL), make the
native read call, bind `ok` to `status == 1`, return `Error::Message` of the
out-message when `!ok`, and otherwise `from_raw` the out-buffer.  `nat` is
the native call's outcome. -/
def MemoryBuffer.from_file (path : HostPath) (nat : FileReadOutcome) :
    Outcome MemoryBuffer :=
  match path.str with
  | none => .err .InvalidPath
  | some p =>
    match cstr p with
    | .panicked m => .panicked m
    | .err e => .err e
    | .ok _ =>
      let ok := nat.ret == 1
      if !ok then .err (.Message nat.message)
      else
        match MemoryBuffer.from_raw nat.mem nat.memData with
        | .error e => .err e
        | .ok b => .ok b

/-- `LLVMCreateMemoryBufferWithMemoryRangeCopy`: copies the given bytes into
fresh native-owned storage and returns the new buffer's raw pointer.  `alloc`
is the pointer the native allocator hands back (0 models allocation failure);
the native object's contents are exactly the copied bytes. -/
def LLVMCreateMemoryBufferWithMemoryRangeCopy (s : List Nat) (_name : CStr)
    (alloc : RawPtr) : RawPtr × List Nat := (alloc, s)

/-- `MemoryBuffer::from_slice` (lib.rs): `cstr!` on the name (panics on
interior NUL), then the native range-copy call, then `from_raw` on the
returned pointer.  `alloc` is the native allocation outcome. -/
def MemoryBuffer.from_slice (name : List Nat) (s : List Nat) (alloc : RawPtr) :
    Outcome MemoryBuffer :=
  match cstr name with
  | .panicked m => .panicked m
  | .err e => .err e
  | .ok n =>
    let mem := LLVMCreateMemoryBufferWithMemoryRangeCopy s n alloc
    match MemoryBuffer.from_raw mem.1 mem.2 with
    | .error e => .err e
    | .ok b => .ok b

/-- `LLVMGetBufferSize`: the native-reported size of the buffer object. -/
def LLVMGetBufferSize (b : MemoryBuffer) : Nat := b.data.length

/-- `MemoryBuffer::len` (lib.rs): forwards to `LLVMGetBufferSize`. -/
def MemoryBuffer.len (b : MemoryBuffer) : Nat := LLVMGetBufferSize b

/-- `impl AsRef<[u8]> for MemoryBuffer` (lib.rs): read `len()` bytes starting
at `LLVMGetBufferStart` (`slice::from_raw_parts(start, size)`). -/
def MemoryBuffer.as_ref (b : MemoryBuffer) : List Nat := b.data.take b.len

/-- Outcome of a host filesystem primitive (`File::create`, `write_all`). -/
inductive IoOutcome where
  | ok
  | fail (e : IoError)

/-- `MemoryBuffer::write_to_file` (lib.rs): `File::create(path)?`, then
`write_all(&mut f, self.as_ref())?`, then `Ok(())`; the `?` converts the host
I/O failure into `Error::Io` (the `From` impl lives in `error.rs`, modelled
from the spec).  `createR` and `writeR` are the host filesystem outcomes.
The second component is the file's contents after a fully successful write
(`none` when the write did not complete). -/
def MemoryBuffer.write_to_file (b : MemoryBuffer) (createR : IoOutcome)
    (writeR : IoOutcome) : Except Error Unit × Option (List Nat) :=
  match createR with
  | .fail e => (.error (.Io e), none)
  | .ok =>
    match writeR with
    | .fail e => (.error (.Io e), none)
    | .ok => (.ok (), some b.as_ref)

/-- `impl Drop for MemoryBuffer` (lib.rs): always call
`LLVMDisposeMemoryBuffer`, unconditionally. -/
def MemoryBuffer.dropCalls (_b : MemoryBuffer) : List NativeCall :=
  [.disposeMemoryBuffer]

/-- The two kinds of native legacy pass manager the LLVM-C creators produce. -/
inductive NativePMKind where
  | moduleScoped
  | functionScoped
deriving DecidableEq

/-- An opaque transform identifier (`Transform` in pass_manager.rs is a
native function pointer registering one named pass). -/
abbrev Transform := Nat

/-- Modelled from the spec: the `Module` handle (`module.rs` is not under
src/); a compilation unit handle borrowed from a Context.  Only its raw
handle matters for the pass-manager claims. -/
structure Module where
  handle : NonNullPtr

/-- Modelled from the spec: the `Func` function-value handle (`value.rs` is
not under src/); only its raw handle matters here. -/
structure Func where
  handle : NonNullPtr

/-- The native state behind an `LLVMPassManager` handle: which creator kind
produced it and the transforms registered so far. -/
structure PMState where
  handle : NonNullPtr
  kind : NativePMKind
  transforms : List Transform

/-- `LLVMCreatePassManager()`: creates a new whole-pipeline legacy pass
manager — the module-scoped variant.  `alloc` is the raw pointer the native
allocator hands back (0 models allocation failure). -/
def LLVMCreatePassManager (alloc : RawPtr) : RawPtr × NativePMKind :=
  (alloc, .moduleScoped)

/-- `LLVMCreateFunctionPassManagerForModule(M)`: creates a function-scoped
legacy pass manager attached to the module.  `alloc` is the raw pointer the
native allocator hands back (0 models allocation failure). -/
def LLVMCreateFunctionPassManagerForModule (_m : Module) (alloc : RawPtr) :
    RawPtr × NativePMKind := (alloc, .functionScoped)

/-- `FuncPassManager::new` (pass_manager.rs): calls `LLVMCreatePassManager()`
and wraps the returned pointer with `wrap_inner`.  No transforms are
registered yet. -/
def FuncPassManager.new (alloc : RawPtr) : Except Error PMState :=
  let created := LLVMCreatePassManager alloc
  match wrap_inner created.1 with
  | .error e => .error e
  | .ok q => .ok ⟨q, created.2, []⟩

/-- `ModulePassManager::new` (pass_manager.rs): calls
`LLVMCreateFunctionPassManagerForModule(module)` and wraps the returned
pointer with `wrap_inner`.  No transforms are registered yet. -/
def ModulePassManager.new (m : Module) (alloc : RawPtr) : Except Error PMState :=
  let created := LLVMCreateFunctionPassManagerForModule m alloc
  match wrap_inner created.1 with
  | .error e => .error e
  | .ok q => .ok ⟨q, created.2, []⟩

/-- `PassManager::add` (pass_manager.rs): invoke each transform on the native
pass-manager handle, registering it, in the order given. -/
def PassManager.add (pm : PMState) (ts : List Transform) : PMState :=
  { pm with transforms := pm.transforms ++ ts }

/-- `LLVMRunPassManager(PM, M)`: run the registered passes over the module
and return 1 exactly when some pass modified it, 0 otherwise; an empty
pipeline modifies nothing.  `modifies` supplies the native behaviour of each
registered transform on this module. -/
def LLVMRunPassManager (modifies : Transform → Bool) (pm : PMState)
    (_m : Module) : Nat :=
  if pm.transforms.any modifies then 1 else 0

/-- `LLVMRunFunctionPassManager(FPM, F)`: run the registered passes over the
function and return 1 exactly when some pass modified it, 0 otherwise. -/
def LLVMRunFunctionPassManager (modifies : Transform → Bool) (pm : PMState)
    (_f : Func) : Nat :=
  if pm.transforms.any modifies then 1 else 0

/-- `impl PassManager for ModulePassManager::run` (pass_manager.rs):
`LLVMRunPassManager(self, module) == 1`. -/
def ModulePassManager.run (modifies : Transform → Bool) (pm : PMState)
    (m : Module) : Bool :=
  LLVMRunPassManager modifies pm m == 1

/-- `impl PassManager for FuncPassManager::run` (pass_manager.rs):
`LLVMRunFunctionPassManager(self, f) == 1`. -/
def FuncPassManager.run (modifies : Transform → Bool) (pm : PMState)
    (f : Func) : Bool :=
  LLVMRunFunctionPassManager modifies pm f == 1

/-- Helper: `strlen` of a byte list with no interior 0 is its length. -/
theorem cstrlen_of_not_mem (bs : List Nat) (h : 0 ∉ bs) :
    cstrlen bs = bs.length := by
  induction bs with
  | nil => rfl
  | cons b bs ih =>
    rw [List.mem_cons, not_or] at h
    simp only [cstrlen, List.length_cons]
    rw [if_neg (fun hb => h.1 hb.symm), ih h.2]

/-- C1: for every handle-constructing operation (`wrap_inner`,
`MemoryBuffer::from_raw`, `FuncPassManager::new`, `ModulePassManager::new`),
a null raw pointer from the native call yields the `NullPointer` error and
never a handle, while a non-null pointer yields a handle wrapping exactly
that pointer; no case panics (every case returns one of these two results). -/
theorem C1_null_rejection (p : RawPtr) (data : List Nat) :
    (p = 0 →
      wrap_inner p = .error .NullPointer ∧
      MemoryBuffer.from_raw p data = .error .NullPointer ∧
      FuncPassManager.new p = .error .NullPointer ∧
      ∀ m : Module, ModulePassManager.new m p = .error .NullPointer) ∧
    (∀ h : p ≠ 0,
      wrap_inner p = .ok ⟨p, h⟩ ∧
      MemoryBuffer.from_raw p data = .ok ⟨⟨p, h⟩, data⟩ ∧
      FuncPassManager.new p = .ok ⟨⟨p, h⟩, .moduleScoped, []⟩ ∧
      ∀ m : Module, ModulePassManager.new m p = .ok ⟨⟨p, h⟩, .functionScoped, []⟩) := by
  constructor
  · intro hp
    subst hp
    exact ⟨rfl, rfl, rfl, fun _ => rfl⟩
  · intro h
    simp only [wrap_inner, MemoryBuffer.from_raw, FuncPassManager.new,
      ModulePassManager.new, LLVMCreatePassManager,
      LLVMCreateFunctionPassManagerForModule, dif_neg h]
    exact ⟨trivial, trivial, trivial, fun _ => trivial⟩

/-- C1 witness: at the concrete non-null pointer 3 the handle wraps 3. -/
theorem C1_null_rejection_witness :
    wrap_inner 3 = .ok ⟨3, by decide⟩ :=
  (((C1_null_rejection 3 []).2 (by decide)).1)

/-- C2 (bug): `from_file` binds `ok` to `status == 1`, but the native
file-read call returns status 0 on success and 1 on failure.  On a
successful read (status 0, non-null out-buffer, null out-message) it
therefore returns `Err(Message(<null>))` instead of the buffer, and on a
failed read (status 1, diagnostic out-message) it returns
`Err(NullPointer)` instead of `Err(Message(diagnostic))`. -/
theorem C2_from_file_inverted_status :
    MemoryBuffer.from_file ⟨some [97]⟩
        (.success ⟨1, by decide⟩ [104, 105]) = .err (.Message .null) ∧
    MemoryBuffer.from_file ⟨some [97]⟩
        (.failure [98, 97, 100]) = .err .NullPointer :=
  ⟨rfl, rfl⟩

/-- C3 counterexample: `from_slice` with a name containing an embedded null
byte panics with "Invalid C string" (via `expect` in the `cstr!` macro); it
does not return the `InvalidPath` error the claim states. -/
theorem C3_embedded_null_counterexample :
    MemoryBuffer.from_slice [0] [] 1 = .panicked "Invalid C string" ∧
    MemoryBuffer.from_slice [0] [] 1 ≠ .err .InvalidPath := by
  refine ⟨rfl, fun h => ?_⟩
  rw [(rfl : MemoryBuffer.from_slice [0] [] 1 = .panicked "Invalid C string")] at h
  exact Outcome.noConfusion h

/-- C3 (amended): a host string containing an embedded null byte supplied
where a C-style string is constructed (the name of `from_slice`, or a
UTF-8 path with an interior NUL in `from_file`) makes the operation panic
with "Invalid C string"; it does not return a structured error. -/
theorem C3_embedded_null_panics (name s pathBytes : List Nat) (alloc : RawPtr)
    (nat : FileReadOutcome) :
    (0 ∈ name →
      MemoryBuffer.from_slice name s alloc = .panicked "Invalid C string") ∧
    (0 ∈ pathBytes →
      MemoryBuffer.from_file ⟨some pathBytes⟩ nat = .panicked "Invalid C string") := by
  constructor
  · intro h
    simp [MemoryBuffer.from_slice, cstr, if_pos h]
  · intro h
    simp [MemoryBuffer.from_file, cstr, if_pos h]

/-- C3 amended witness: concrete name and path each holding the byte 0. -/
theorem C3_embedded_null_panics_witness :
    MemoryBuffer.from_slice [0, 97] [1] 1 = .panicked "Invalid C string" ∧
    MemoryBuffer.from_file ⟨some [98, 0]⟩ (.failure [99]) =
      .panicked "Invalid C string" :=
  ⟨(C3_embedded_null_panics [0, 97] [1] [98, 0] 1 (.failure [99])).1 (by decide),
   (C3_embedded_null_panics [0, 97] [1] [98, 0] 1 (.failure [99])).2 (by decide)⟩

/-- C4 (bug): the two constructors are swapped with respect to the native
variants.  `FuncPassManager::new` calls `LLVMCreatePassManager()` and so
constructs the module-scoped native variant, and `ModulePassManager::new`
calls `LLVMCreateFunctionPassManagerForModule` and so constructs the
function-scoped native variant — the opposite of what the claim states. -/
theorem C4_pass_manager_creators_swapped :
    (∃ pm, FuncPassManager.new 1 = .ok pm ∧
      pm.kind = .moduleScoped ∧ pm.kind ≠ .functionScoped) ∧
    (∃ pm, ModulePassManager.new ⟨⟨2, by decide⟩⟩ 1 = .ok pm ∧
      pm.kind = .functionScoped ∧ pm.kind ≠ .moduleScoped) :=
  ⟨⟨_, rfl, rfl, by decide⟩, ⟨_, rfl, rfl, by decide⟩⟩

/-- C5 (bug): the first half of the round trip holds — `from_slice` yields a
buffer reading back exactly the input bytes, and `write_to_file` writes
exactly those bytes — but reading the written file back with `from_file`
cannot return a buffer: even when the native read succeeds (status 0) the
inverted status check makes `from_file` return `Err(Message(<null>))`. -/
theorem C5_roundtrip_broken :
    (∃ buf, MemoryBuffer.from_slice [110] [1, 2, 3] 4 = .ok buf ∧
      buf.as_ref = [1, 2, 3] ∧
      buf.write_to_file .ok .ok = (.ok (), some [1, 2, 3])) ∧
    MemoryBuffer.from_file ⟨some [102]⟩ (.success ⟨5, by decide⟩ [1, 2, 3]) =
      .err (.Message .null) :=
  ⟨⟨_, rfl, rfl, rfl⟩, rfl⟩

/-- C6: a `Message` over a non-null native diagnostic (whose bytes, being a
C string's contents, hold no interior 0) converts via `as_ref` to exactly
the original bytes and reports their length; a null-pointer `Message` has
`len() = 0` and renders as the fixed `"<NULL>"` placeholder. -/
theorem C6_message_roundtrip (bytes : List Nat) (h : 0 ∉ bytes) :
    (Message.ptr bytes).as_ref = bytes ∧
    (Message.ptr bytes).len = bytes.length ∧
    Message.null.len = 0 ∧
    Message.null.as_ref = NULL_PLACEHOLDER := by
  refine ⟨?_, ?_, rfl, rfl⟩
  · show bytes.take (cstrlen bytes) = bytes
    rw [cstrlen_of_not_mem bytes h, List.take_length]
  · show cstrlen bytes = bytes.length
    exact cstrlen_of_not_mem bytes h

/-- C6 witness: the concrete diagnostic bytes "hi". -/
theorem C6_message_roundtrip_witness :
    (Message.ptr [104, 105]).as_ref = [104, 105] :=
  (C6_message_roundtrip [104, 105] (by decide)).1

/-- C7: dropping a `Message` performs the `LLVMDisposeMessage` call exactly
once if and only if its inner pointer is non-null (and performs no other
native call); dropping a `MemoryBuffer` always performs the
`LLVMDisposeMemoryBuffer` call exactly once. -/
theorem C7_drop_disposes_exactly_once (m : Message) (b : MemoryBuffer) :
    m.dropCalls = (if m.isNull then [] else [NativeCall.disposeMessage]) ∧
    m.dropCalls.count .disposeMessage = (if m.isNull then 0 else 1) ∧
    b.dropCalls = [NativeCall.disposeMemoryBuffer] ∧
    b.dropCalls.count .disposeMemoryBuffer = 1 := by
  cases m <;>
    exact ⟨rfl, rfl, rfl, rfl⟩

/-- C8: a `ModulePassManager` fresh from `new` has no transforms enqueued,
so `run` on any module finds no modifying pass and returns `false`. -/
theorem C8_empty_pass_manager_no_change (m : Module) (alloc : RawPtr)
    (modifies : Transform → Bool) (pm : PMState)
    (h : ModulePassManager.new m alloc = .ok pm) :
    ModulePassManager.run modifies pm m = false := by
  by_cases ha : alloc = 0
  · subst ha
    simp [ModulePassManager.new, LLVMCreateFunctionPassManagerForModule,
      wrap_inner] at h
  · simp only [ModulePassManager.new, LLVMCreateFunctionPassManagerForModule,
      wrap_inner, dif_neg ha, Except.ok.injEq] at h
    subst h
    simp [ModulePassManager.run, LLVMRunPassManager]

/-- C8 witness: a concrete module and freshly constructed pass manager. -/
theorem C8_empty_pass_manager_no_change_witness :
    ModulePassManager.run (fun _ => true)
      ⟨⟨3, by decide⟩, .functionScoped, []⟩ ⟨⟨2, by decide⟩⟩ = false :=
  C8_empty_pass_manager_no_change ⟨⟨2, by decide⟩⟩ 3 (fun _ => true) _ rfl

/-- C9: `write_to_file` returns the `Io` error exactly when creating the file
or writing to it fails, and on success writes all of the buffer's bytes
(`as_ref`, which is the whole contents) to the file and returns `Ok(())`. -/
theorem C9_write_to_file_io (b : MemoryBuffer) (e : IoError) (w : IoOutcome) :
    b.write_to_file (.fail e) w = (.error (.Io e), none) ∧
    b.write_to_file .ok (.fail e) = (.error (.Io e), none) ∧
    b.write_to_file .ok .ok = (.ok (), some b.as_ref) ∧
    b.as_ref = b.data := by
  refine ⟨rfl, rfl, rfl, ?_⟩
  simp [MemoryBuffer.as_ref, MemoryBuffer.len, LLVMGetBufferSize]

/-- C10: for every live `MemoryBuffer`, the byte view returned by `as_ref`
has length exactly `len()`, the native-reported buffer size. -/
theorem C10_as_ref_length_eq_len (b : MemoryBuffer) :
    b.as_ref.length = b.len := by
  simp [MemoryBuffer.as_ref, MemoryBuffer.len, LLVMGetBufferSize]

end Llama
